import Mathlib

/- Verification of the ATtiny10 LED garland firmware (src/main.cpp).

   The development shallowly embeds the program's data and control flow:
   the build-time pattern library and acceleration table, the fade loop of
   main (lines 145-204) as a trace-producing recursion, the tick handler,
   the per-pattern tick reset, the pass/budget loop, and the instruction
   index walk of the inner interpreter loop.  Machine integers are modelled
   as Nat; no value in any reachable trace approaches a width boundary
   except the 16-bit tick counter, which carries an explicit % 65536. -/

namespace Garland

/-- The pattern library (main.cpp lines 14-24): 0-terminated lists of
signed 16-bit instructions. -/
def patterns : List (List Int) := [
  [500, -500, 500, -500, 1, 50, -1, -50, 1, 50, -1, -50, 1, 50, -3000, -2000, 0],
  [1, 500, -1, -500, 0],
  [4000, -1, -2000, 0],
  [1, 250, -1, -250, 0],
  [500, -500, -3000, 0],
  [1, 50, -1, -50, 0],
  [1, -4000, -2000, 0],
  [2000, -1, -100, 1, 100, -1, -100, 1, 100, -1, -100, 1, 100, -1, -100, 1, -2000, -3000, 0],
  [1000, -1000, 0]]

/-- Number of patterns in the library (sizeof(patterns)/sizeof(patterns[0])). -/
def numPatterns : Nat := patterns.length

/-- Each pattern plays for 30000 ticks (main.cpp line 27). -/
def PATTERN_DURATION : Nat := 30000

/-- The acceleration table (main.cpp line 32). -/
def accelerationPoints : List Nat := [0, 30, 60, 80, 10, 255]

/-- The interior entries of the acceleration table: everything except the
first and last (sentinel) entries. -/
def interiorPoints : List Nat := (accelerationPoints.drop 1).dropLast

/-- The initial step size of a dimming fade
(sizeof(accelerationPoints)/sizeof(accelerationPoints[0]) - 2, line 162). -/
def maxStep : Nat := accelerationPoints.length - 2

/-- Array lookup, as the C code's accelerationPoints[i]. -/
def tableGet (t : List Nat) (i : Nat) : Nat := t.getD i 0

/-- One iteration of the fade loop as observed on the trace: the loop
counter and step size on entry, the brightness written, the step size
after the threshold check, and the argument passed to sleep. -/
structure FadeIter where
  kIn : Nat
  stepIn : Nat
  value : Nat
  stepOut : Nat
  sleepTicks : Nat

/-- A complete run of the fade loop: the iterations in order, the final
value of the loop counter, and whether the loop exited because its
condition k < 128 failed (rather than the modelling fuel running out). -/
structure FadeTrace where
  iters : List FadeIter
  kFinal : Nat
  exited : Bool

/-- The brightness computed by one fade iteration (lines 172 and 182):
k - 1 when brightening, 128 - k when dimming.  The loop only ever runs
with 1 <= k < 128, where Nat subtraction agrees with the C arithmetic. -/
def fadeValue (sign : Bool) (k : Nat) : Nat :=
  if sign then k - 1 else 128 - k

/-- The step-size update of one fade iteration (lines 175-188): while
brightening, step increments when value >= accelerationPoints[step];
while dimming, step decrements when value <= accelerationPoints[step-1]. -/
def fadeStepOut (table : List Nat) (sign : Bool) (step value : Nat) : Nat :=
  if sign then
    if tableGet table step ≤ value then step + 1 else step
  else
    if value ≤ tableGet table (step - 1) then step - 1 else step

/-- The sleep argument of one fade iteration (lines 195-203): delay/64 + 1
while the remainder is being consumed, delay/64 afterwards. -/
def fadeSleep (dly r : Nat) : Nat :=
  if r ≠ 0 then dly / 64 + 1 else dly / 64

/-- The fade loop of main.cpp lines 166-204: for (k = 1; k < 128; k += step),
computing a brightness, updating step at the table thresholds, writing the
brightness and sleeping one time slice.  The remainder decrements while
nonzero (in Nat, r - 1 is exactly that).  fuel bounds the recursion; a run
whose loop condition fails within the fuel has exited = true. -/
def fadeLoop (table : List Nat) (sign : Bool) (dly : Nat) :
    (fuel k step r : Nat) → FadeTrace
  | 0, k, _, _ => ⟨[], k, false⟩
  | fuel + 1, k, step, r =>
    if k < 128 then
      let value := fadeValue sign k
      let stepOut := fadeStepOut table sign step value
      let rest := fadeLoop table sign dly fuel (k + stepOut) stepOut (r - 1)
      ⟨⟨k, step, value, stepOut, fadeSleep dly r⟩ :: rest.iters, rest.kFinal, rest.exited⟩
    else
      ⟨[], k, true⟩

/-- A full fade (main.cpp lines 145-204): remainder = delay % 64, step
initialized to 1 when brightening and to maxStep when dimming, then the
loop from k = 1.  Fuel 127 covers every possible iteration count. -/
def fade (sign : Bool) (dly : Nat) : FadeTrace :=
  fadeLoop accelerationPoints sign dly 127 1 (if sign then 1 else maxStep) (dly % 64)

/-- The brightness values written by a fade, in order. -/
def writes (t : FadeTrace) : List Nat := t.iters.map FadeIter.value

/-- The sleep arguments requested by a fade, in order. -/
def sleeps (t : FadeTrace) : List Nat := t.iters.map FadeIter.sleepTicks

/-- The step size at the start of each iteration, in order. -/
def stepsIn (t : FadeTrace) : List Nat := t.iters.map FadeIter.stepIn

/-- The step size after the threshold check of each iteration, in order. -/
def stepsOut (t : FadeTrace) : List Nat := t.iters.map FadeIter.stepOut

/-- The loop counter at the start of each iteration, in order. -/
def kIns (t : FadeTrace) : List Nat := t.iters.map FadeIter.kIn

/-- Total number of ticks requested from sleep over a fade. -/
def sumSleeps (t : FadeTrace) : Nat := (sleeps t).sum

/-- A fade trace with the sleep arguments blanked out: everything about a
fade except its timing. -/
def eraseSleeps (t : FadeTrace) : FadeTrace :=
  ⟨t.iters.map (fun it => ⟨it.kIn, it.stepIn, it.value, it.stepOut, 0⟩),
    t.kFinal, t.exited⟩

/-- Interpreter state owned by main: the current pattern index, the current
logical state (line 105) and the tick counter it shares with the handler. -/
structure InterpState where
  patternIdx : Nat
  state : Bool
  ticks : Nat

/-- The timer-overflow handler (main.cpp lines 37-40): ++ticks on the
16-bit counter. -/
def tim0OvfISR (t : Nat) : Nat := (t + 1) % 65536

/-- What main does on entering a pattern (line 113): ticks = 0. -/
def enterPattern (s : InterpState) : InterpState := { s with ticks := 0 }

/-- The pattern index after the for loop of line 110 advances: i + 1 while
that is still in range, else back to 0 (the enclosing while(true) restarts
the for loop). -/
def nextPatternIndex (i : Nat) : Nat :=
  if i + 1 < numPatterns then i + 1 else 0

/-- The do-while loop of lines 116-210 at pass granularity: given the tick
cost of each successive full pass over the instruction list, run a pass,
then exit once ticks has reached PATTERN_DURATION.  Returns the tick value
at exit, or none when the supplied pass list is exhausted first. -/
def runPasses : List Nat → Nat → Option Nat
  | [], _ => none
  | c :: cs, t =>
    if t + c < PATTERN_DURATION then runPasses cs (t + c) else some (t + c)

/-- The index walk of the inner instruction loop (line 119): starting from
index j, the list of indices read by one pass, the 0 sentinel included;
none when the walk would read out of bounds or exceed the fuel. -/
def passReads (p : List Int) : (fuel j : Nat) → Option (List Nat)
  | 0, _ => none
  | fuel + 1, j =>
    match p.get? j with
    | none => none
    | some v =>
      if v = 0 then some [j]
      else
        match passReads p fuel (j + 1) with
        | none => none
        | some rest => some (j :: rest)

/- Helper lemmas. -/

/-- The fade loop's brightness values, step sizes, loop counters, final
counter and exit flag do not depend on the requested duration or on the
remainder: those two inputs only feed the sleep arguments. -/
theorem fadeLoop_erase_indep (table : List Nat) (sign : Bool) (d d' : Nat) :
    ∀ (fuel k step r r' : Nat),
      eraseSleeps (fadeLoop table sign d fuel k step r) =
        eraseSleeps (fadeLoop table sign d' fuel k step r') := by
  intro fuel
  induction fuel with
  | zero => intro k step r r'; rfl
  | succ fuel ih =>
    intro k step r r'
    by_cases h : k < 128
    · have ihx := ih (k + fadeStepOut table sign step (fadeValue sign k))
        (fadeStepOut table sign step (fadeValue sign k)) (r - 1) (r' - 1)
      simp only [fadeLoop, if_pos h, eraseSleeps, List.map_cons, FadeTrace.mk.injEq,
        List.cons.injEq] at ihx ⊢
      exact ⟨⟨trivial, ihx.1⟩, ihx.2⟩
    · simp only [fadeLoop, if_neg h]

theorem fade_erase_indep (sign : Bool) (d d' : Nat) :
    eraseSleeps (fade sign d) = eraseSleeps (fade sign d') :=
  fadeLoop_erase_indep accelerationPoints sign d d' 127 1
    (if sign then 1 else maxStep) (d % 64) (d' % 64)

theorem writes_eraseSleeps (t : FadeTrace) : writes (eraseSleeps t) = writes t := by
  simp only [writes, eraseSleeps, List.map_map]
  rfl

theorem stepsIn_eraseSleeps (t : FadeTrace) : stepsIn (eraseSleeps t) = stepsIn t := by
  simp only [stepsIn, eraseSleeps, List.map_map]
  rfl

theorem stepsOut_eraseSleeps (t : FadeTrace) : stepsOut (eraseSleeps t) = stepsOut t := by
  simp only [stepsOut, eraseSleeps, List.map_map]
  rfl

theorem kIns_eraseSleeps (t : FadeTrace) : kIns (eraseSleeps t) = kIns t := by
  simp only [kIns, eraseSleeps, List.map_map]
  rfl

/-- The brightness write sequence of a fade is the same for every duration. -/
theorem fade_writes_eq (sign : Bool) (d d' : Nat) :
    writes (fade sign d) = writes (fade sign d') := by
  rw [← writes_eraseSleeps (fade sign d), ← writes_eraseSleeps (fade sign d'),
    fade_erase_indep sign d d']

/-- The step-size-on-entry sequence of a fade is the same for every duration. -/
theorem fade_stepsIn_eq (sign : Bool) (d d' : Nat) :
    stepsIn (fade sign d) = stepsIn (fade sign d') := by
  rw [← stepsIn_eraseSleeps (fade sign d), ← stepsIn_eraseSleeps (fade sign d'),
    fade_erase_indep sign d d']

/-- The step-size-after-update sequence of a fade is the same for every duration. -/
theorem fade_stepsOut_eq (sign : Bool) (d d' : Nat) :
    stepsOut (fade sign d) = stepsOut (fade sign d') := by
  rw [← stepsOut_eraseSleeps (fade sign d), ← stepsOut_eraseSleeps (fade sign d'),
    fade_erase_indep sign d d']

/-- The loop-counter sequence of a fade is the same for every duration. -/
theorem fade_kIns_eq (sign : Bool) (d d' : Nat) :
    kIns (fade sign d) = kIns (fade sign d') := by
  rw [← kIns_eraseSleeps (fade sign d), ← kIns_eraseSleeps (fade sign d'),
    fade_erase_indep sign d d']

/-- The iteration count of a fade is the same for every duration. -/
theorem fade_len_eq (sign : Bool) (d d' : Nat) :
    (fade sign d).iters.length = (fade sign d').iters.length := by
  have h := congrArg (fun t => t.iters.length) (fade_erase_indep sign d d')
  simpa only [eraseSleeps, List.length_map] using h

/-- The final loop counter of a fade is the same for every duration. -/
theorem fade_kFinal_eq (sign : Bool) (d d' : Nat) :
    (fade sign d).kFinal = (fade sign d').kFinal := by
  simpa only [eraseSleeps] using congrArg FadeTrace.kFinal (fade_erase_indep sign d d')

/-- The exit flag of a fade is the same for every duration. -/
theorem fade_exited_eq (sign : Bool) (d d' : Nat) :
    (fade sign d).exited = (fade sign d').exited := by
  simpa only [eraseSleeps] using congrArg FadeTrace.exited (fade_erase_indep sign d d')

/-- Remainder-compensation accounting of the fade loop: over a run of n
iterations starting with remainder r, the requested sleeps total
n * (d / 64) + min r n, because the first min r n iterations sleep one
extra tick. -/
theorem fadeLoop_sumSleeps (table : List Nat) (sign : Bool) (d : Nat) :
    ∀ (fuel k step r : Nat),
      sumSleeps (fadeLoop table sign d fuel k step r) =
        (fadeLoop table sign d fuel k step r).iters.length * (d / 64) +
          min r (fadeLoop table sign d fuel k step r).iters.length := by
  intro fuel
  induction fuel with
  | zero => intro k step r; simp [fadeLoop, sumSleeps, sleeps]
  | succ fuel ih =>
    intro k step r
    by_cases h : k < 128
    · have ihx := ih (k + fadeStepOut table sign step (fadeValue sign k))
        (fadeStepOut table sign step (fadeValue sign k)) (r - 1)
      simp only [sumSleeps, sleeps] at ihx ⊢
      simp only [fadeLoop, if_pos h, List.map_cons, List.sum_cons, List.length_cons,
        fadeSleep, ihx]
      rw [Nat.add_mul, Nat.one_mul]
      rcases Nat.eq_zero_or_pos r with hr | hr
      · subst hr
        rw [if_neg (fun hc => hc rfl)]
        omega
      · rw [if_pos (Nat.pos_iff_ne_zero.mp hr)]
        omega
    · simp [fadeLoop, if_neg h, sumSleeps, sleeps]

/-- When the pass/budget loop exits, the tick value has reached the budget
and is the total cost of a whole number of complete passes: the budget
check happens only at pass boundaries. -/
theorem runPasses_exit (costs : List Nat) :
    ∀ (t tEnd : Nat), runPasses costs t = some tEnd →
      PATTERN_DURATION ≤ tEnd ∧ ∃ n, tEnd = t + (costs.take n).sum := by
  induction costs with
  | nil => intro t tEnd h; simp [runPasses] at h
  | cons c cs ih =>
    intro t tEnd h
    simp only [runPasses] at h
    by_cases hc : t + c < PATTERN_DURATION
    · rw [if_pos hc] at h
      obtain ⟨h1, n, h2⟩ := ih (t + c) tEnd h
      refine ⟨h1, n + 1, ?_⟩
      simp only [List.take_succ_cons, List.sum_cons]
      omega
    · rw [if_neg hc] at h
      have := Option.some.inj h
      refine ⟨by omega, 1, ?_⟩
      simp only [List.take_succ_cons, List.take_zero, List.sum_cons, List.sum_nil]
      omega

/-- The brightening fade always runs exactly 62 iterations. -/
theorem fade_len_bright (d : Nat) : (fade true d).iters.length = 62 := by
  rw [fade_len_eq true d 128]
  decide

/-- The dimming fade always runs exactly 63 iterations. -/
theorem fade_len_dim (d : Nat) : (fade false d).iters.length = 63 := by
  rw [fade_len_eq false d 128]
  decide

/- Claims. -/

/-- C1 (counterexample): with the strictly increasing acceleration table
[0, 30, 60, 80, 100, 255] and duration 128, the last brightness written by
the brightening fade loop is 126, not 127, and the last brightness written
by the dimming fade loop is 1, not 0. -/
theorem fade_endpoint_cex :
    List.Pairwise (fun a b => a < b) [(30 : Nat), 60, 80, 100] ∧
    (writes (fadeLoop [0, 30, 60, 80, 100, 255] true 128 127 1 1 (128 % 64))).getLast?
      = some 126 ∧
    (writes (fadeLoop [0, 30, 60, 80, 100, 255] false 128 127 1 4 (128 % 64))).getLast?
      = some 1 ∧
    (126 : Nat) ≠ 127 ∧ (1 : Nat) ≠ 0 := by decide

/-- C1 (amended): for every duration d >= 128, with the shipped
acceleration table, the last brightness written by Fade(brightening, d) is
125 and the last brightness written by Fade(dimming, d) is 1 — the fade
stops short of both target boundaries. -/
theorem fade_endpoint_shipped (d : Nat) (_hd : 128 ≤ d) :
    (writes (fade true d)).getLast? = some 125 ∧
    (writes (fade false d)).getLast? = some 1 := by
  rw [fade_writes_eq true d 128, fade_writes_eq false d 128]
  decide

/-- Witness for fade_endpoint_shipped at d = 128. -/
theorem fade_endpoint_shipped_witness :
    128 ≤ 128 ∧
    ((writes (fade true 128)).getLast? = some 125 ∧
      (writes (fade false 128)).getLast? = some 1) :=
  ⟨by decide, fade_endpoint_shipped 128 (by decide)⟩

/-- C2 (counterexample): Fade(brightening, 128) requests 62 sleeps of 2
ticks each, totalling 124 ticks, not the 128 the claim demands. -/
theorem fade_sleep_total_cex :
    sumSleeps (fade true 128) = 124 ∧ (124 : Nat) ≠ 128 := by decide

/-- C2 (amended): for every duration d >= 128, the first min(d mod 64, N)
iterations sleep d / 64 + 1 ticks and the rest sleep d / 64 ticks, where N
is the iteration count (62 brightening, 63 dimming); the total requested
sleep is N * (d / 64) + min (d mod 64) N, which is strictly less than d in
both directions. -/
theorem fade_sleep_total (d : Nat) (hd : 128 ≤ d) :
    sumSleeps (fade true d) = 62 * (d / 64) + min (d % 64) 62 ∧
    sumSleeps (fade false d) = 63 * (d / 64) + d % 64 ∧
    sumSleeps (fade true d) < d ∧ sumSleeps (fade false d) < d := by
  have hb := fadeLoop_sumSleeps accelerationPoints true d 127 1 1 (d % 64)
  have hdim := fadeLoop_sumSleeps accelerationPoints false d 127 1 maxStep (d % 64)
  have eb : fade true d = fadeLoop accelerationPoints true d 127 1 1 (d % 64) := rfl
  have ed : fade false d = fadeLoop accelerationPoints false d 127 1 maxStep (d % 64) := rfl
  rw [← eb] at hb
  rw [← ed] at hdim
  rw [fade_len_bright d] at hb
  rw [fade_len_dim d] at hdim
  refine ⟨by omega, by omega, by omega, by omega⟩

/-- Witness for fade_sleep_total at d = 200. -/
theorem fade_sleep_total_witness :
    128 ≤ 200 ∧
    (sumSleeps (fade true 200) = 62 * (200 / 64) + min (200 % 64) 62 ∧
      sumSleeps (fade false 200) = 63 * (200 / 64) + 200 % 64 ∧
      sumSleeps (fade true 200) < 200 ∧ sumSleeps (fade false 200) < 200) :=
  ⟨by decide, fade_sleep_total 200 (by decide)⟩

/-- C3 (counterexample): Fade(brightening, 128) performs 62 brightness
updates, not 127. -/
theorem fade_write_count_cex :
    (writes (fade true 128)).length = 62 ∧ (62 : Nat) ≠ 127 := by decide

/-- C3 (amended): for every duration d >= 128, Fade(brightening, d)
performs exactly 62 brightness updates, starting at 0 and ending at 125,
and Fade(dimming, d) performs exactly 63 brightness updates, starting at
127 and ending at 1. -/
theorem fade_write_count (d : Nat) (_hd : 128 ≤ d) :
    (writes (fade true d)).length = 62 ∧
    (writes (fade false d)).length = 63 ∧
    (writes (fade true d)).head? = some 0 ∧
    (writes (fade false d)).head? = some 127 := by
  rw [fade_writes_eq true d 128, fade_writes_eq false d 128]
  decide

/-- Witness for fade_write_count at d = 128. -/
theorem fade_write_count_witness :
    128 ≤ 128 ∧
    ((writes (fade true 128)).length = 62 ∧
      (writes (fade false 128)).length = 63 ∧
      (writes (fade true 128)).head? = some 0 ∧
      (writes (fade false 128)).head? = some 127) :=
  ⟨by decide, fade_write_count 128 (by decide)⟩

/-- C4 (counterexample): the third interior entry of the shipped table is
80 and the fourth is 10, so the interior entries are not strictly
increasing. -/
theorem accel_table_monotone_cex :
    interiorPoints.getD 2 0 = 80 ∧ interiorPoints.getD 3 0 = 10 ∧
    ¬ List.Pairwise (fun a b => a < b) interiorPoints := by decide

/-- C4 (amended): the acceleration table has exactly 6 entries with
sentinel first entry 0 and sentinel last entry 255; its interior entries
are 30, 60, 80, 10 — the first three strictly increasing, the fourth
smaller than its predecessor. -/
theorem accel_table_shape :
    accelerationPoints.length = 6 ∧
    accelerationPoints.head? = some 0 ∧
    accelerationPoints.getLast? = some 255 ∧
    interiorPoints = [30, 60, 80, 10] ∧
    List.Pairwise (fun a b => a < b) (interiorPoints.take 3) ∧
    ¬ List.Pairwise (fun a b => a < b) interiorPoints := by decide

/-- C5 (counterexample): during a brightening fade the step size reaches
5, which exceeds maxStep = 4 (the count of interior thresholds). -/
theorem fade_step_range_cex :
    maxStep = 4 ∧ 5 ∈ stepsIn (fade true 128) ∧ ¬ (5 ≤ maxStep) := by decide

/-- C5 (amended): for every duration d >= 128, the step size starts at 1
when brightening and at maxStep when dimming, is non-decreasing over a
brightening fade and non-increasing over a dimming fade, and stays within
[1, maxStep + 1] while brightening and within [1, maxStep] while
dimming. -/
theorem fade_step_monotone (d : Nat) (_hd : 128 ≤ d) :
    (stepsIn (fade true d)).head? = some 1 ∧
    (stepsIn (fade false d)).head? = some maxStep ∧
    List.Pairwise (fun a b => a ≤ b) (stepsIn (fade true d)) ∧
    List.Pairwise (fun a b => b ≤ a) (stepsIn (fade false d)) ∧
    (∀ s ∈ stepsIn (fade true d), 1 ≤ s ∧ s ≤ maxStep + 1) ∧
    (∀ s ∈ stepsIn (fade false d), 1 ≤ s ∧ s ≤ maxStep) := by
  rw [fade_stepsIn_eq true d 128, fade_stepsIn_eq false d 128]
  decide

/-- Witness for fade_step_monotone at d = 128. -/
theorem fade_step_monotone_witness :
    128 ≤ 128 ∧
    ((stepsIn (fade true 128)).head? = some 1 ∧
      (stepsIn (fade false 128)).head? = some maxStep ∧
      List.Pairwise (fun a b => a ≤ b) (stepsIn (fade true 128)) ∧
      List.Pairwise (fun a b => b ≤ a) (stepsIn (fade false 128)) ∧
      (∀ s ∈ stepsIn (fade true 128), 1 ≤ s ∧ s ≤ maxStep + 1) ∧
      (∀ s ∈ stepsIn (fade false 128), 1 ≤ s ∧ s ≤ maxStep)) :=
  ⟨by decide, fade_step_monotone 128 (by decide)⟩

/-- C6 (counterexample): on entering a pattern the interpreter writes the
tick counter: from a state whose counter reads 12345, entry leaves the
counter at 0, so the interpreter does reset the counter itself. -/
theorem ticks_reset_cex :
    (enterPattern ⟨3, true, 12345⟩).ticks = 0 ∧ (12345 : Nat) ≠ 0 := by decide

/-- C6 (amended): on entering each pattern the interpreter resets the tick
counter to 0 rather than recording a nonzero baseline; between resets the
counter is advanced only by the tick handler, so after n tick events its
value is n mod 2^16 — elapsed time is read directly from the counter. -/
theorem ticks_reset_semantics (s : InterpState) (n : Nat) :
    (enterPattern s).ticks = 0 ∧
    tim0OvfISR^[n] (enterPattern s).ticks = n % 65536 := by
  refine ⟨rfl, ?_⟩
  have h0 : (enterPattern s).ticks = 0 := rfl
  rw [h0]
  induction n with
  | zero => rfl
  | succ m ih =>
    rw [Function.iterate_succ_apply', ih]
    simp only [tim0OvfISR]
    omega

/-- C7: when the pass/budget loop of a pattern exits, at least
PATTERN_DURATION ticks have elapsed since the pattern's baseline, the exit
happens exactly at a pass boundary (the elapsed value is the cost of a
whole number of complete passes), and the interpreter then advances from
pattern i to pattern (i + 1) mod numPatterns, wrapping from the last
pattern back to the first. -/
theorem pattern_rotation (costs : List Nat) (i tEnd : Nat)
    (hi : i < numPatterns) (h : runPasses costs 0 = some tEnd) :
    nextPatternIndex i = (i + 1) % numPatterns ∧
    nextPatternIndex (numPatterns - 1) = 0 ∧
    PATTERN_DURATION ≤ tEnd ∧
    ∃ n, tEnd = (costs.take n).sum := by
  obtain ⟨h1, n, h2⟩ := runPasses_exit costs 0 tEnd h
  refine ⟨?_, by decide, h1, ⟨n, by omega⟩⟩
  have h9 : numPatterns = 9 := rfl
  unfold nextPatternIndex
  rw [h9] at hi ⊢
  by_cases hc : i + 1 < 9
  · rw [if_pos hc]
    omega
  · rw [if_neg hc]
    omega

/-- Witness for pattern_rotation with a single 30000-tick pass from
pattern 0. -/
theorem pattern_rotation_witness :
    (0 < numPatterns ∧ runPasses [30000] 0 = some 30000) ∧
    (nextPatternIndex 0 = (0 + 1) % numPatterns ∧
      nextPatternIndex (numPatterns - 1) = 0 ∧
      PATTERN_DURATION ≤ 30000 ∧
      ∃ n, 30000 = (List.take n [30000]).sum) :=
  ⟨⟨by decide, by decide⟩, pattern_rotation [30000] 0 30000 (by decide) (by decide)⟩

/-- C8: for every pattern in the shipped library, one pass of the inner
loop reads exactly the indices up to and including the first 0, that 0 is
the final entry of the pattern, and the walk never reads out of bounds. -/
theorem pass_reads_sentinel :
    ∀ p ∈ patterns,
      passReads p p.length 0 =
        some (List.range (List.findIdx (fun x => x == 0) p + 1)) ∧
      List.findIdx (fun x => x == 0) p = p.length - 1 ∧
      p.getD (p.length - 1) 1 = 0 := by decide

/-- Witness for pass_reads_sentinel at the second shipped pattern. -/
theorem pass_reads_sentinel_witness :
    passReads [(1 : Int), 500, -1, -500, 0] [(1 : Int), 500, -1, -500, 0].length 0 =
      some (List.range
        (List.findIdx (fun x => x == 0) [(1 : Int), 500, -1, -500, 0] + 1)) :=
  (pass_reads_sentinel [(1 : Int), 500, -1, -500, 0] (by decide)).1

/-- C9: for every duration d >= 128 and the shipped table, every
acceleration-table access during a fade is in bounds: the step size on
entry to each iteration stays within [1, 5], so the brightening index
step is below the table length 6 and the dimming index step - 1 is
well-defined and below it too; the updated step also stays within
[1, 5]. -/
theorem fade_table_access_inbounds (d : Nat) (_hd : 128 ≤ d) :
    (∀ s ∈ stepsIn (fade true d), s < accelerationPoints.length ∧ 1 ≤ s ∧ s ≤ 5) ∧
    (∀ s ∈ stepsIn (fade false d), 1 ≤ s ∧ s - 1 < accelerationPoints.length ∧ s ≤ 5) ∧
    (∀ s ∈ stepsOut (fade true d), 1 ≤ s ∧ s ≤ 5) ∧
    (∀ s ∈ stepsOut (fade false d), 1 ≤ s ∧ s ≤ 5) := by
  rw [fade_stepsIn_eq true d 128, fade_stepsIn_eq false d 128,
    fade_stepsOut_eq true d 128, fade_stepsOut_eq false d 128]
  decide

/-- Witness for fade_table_access_inbounds at d = 128. -/
theorem fade_table_access_inbounds_witness :
    128 ≤ 128 ∧
    ((∀ s ∈ stepsIn (fade true 128), s < accelerationPoints.length ∧ 1 ≤ s ∧ s ≤ 5) ∧
      (∀ s ∈ stepsIn (fade false 128), 1 ≤ s ∧ s - 1 < accelerationPoints.length ∧ s ≤ 5) ∧
      (∀ s ∈ stepsOut (fade true 128), 1 ≤ s ∧ s ≤ 5) ∧
      (∀ s ∈ stepsOut (fade false 128), 1 ≤ s ∧ s ≤ 5)) :=
  ⟨by decide, fade_table_access_inbounds 128 (by decide)⟩

/-- C10: for every duration d >= 128 and both directions, the fade loop
terminates: its exit flag is set (the condition k < 128 failed within the
127-iteration fuel bound), the final loop counter is at least 128, the
loop counter strictly increases from iteration to iteration because the
step size is at least 1 at every iteration, and the iteration count is at
most 127. -/
theorem fade_terminates (d : Nat) (_hd : 128 ≤ d) :
    (fade true d).exited = true ∧ (fade false d).exited = true ∧
    128 ≤ (fade true d).kFinal ∧ 128 ≤ (fade false d).kFinal ∧
    List.Pairwise (fun a b => a < b) (kIns (fade true d)) ∧
    List.Pairwise (fun a b => a < b) (kIns (fade false d)) ∧
    (∀ s ∈ stepsOut (fade true d), 1 ≤ s) ∧
    (∀ s ∈ stepsOut (fade false d), 1 ≤ s) ∧
    (fade true d).iters.length ≤ 127 ∧ (fade false d).iters.length ≤ 127 := by
  rw [fade_exited_eq true d 128, fade_exited_eq false d 128,
    fade_kFinal_eq true d 128, fade_kFinal_eq false d 128,
    fade_kIns_eq true d 128, fade_kIns_eq false d 128,
    fade_stepsOut_eq true d 128, fade_stepsOut_eq false d 128,
    fade_len_eq true d 128, fade_len_eq false d 128]
  decide

/-- Witness for fade_terminates at d = 128. -/
theorem fade_terminates_witness :
    128 ≤ 128 ∧
    ((fade true 128).exited = true ∧ (fade false 128).exited = true ∧
      128 ≤ (fade true 128).kFinal ∧ 128 ≤ (fade false 128).kFinal ∧
      List.Pairwise (fun a b => a < b) (kIns (fade true 128)) ∧
      List.Pairwise (fun a b => a < b) (kIns (fade false 128)) ∧
      (∀ s ∈ stepsOut (fade true 128), 1 ≤ s) ∧
      (∀ s ∈ stepsOut (fade false 128), 1 ≤ s) ∧
      (fade true 128).iters.length ≤ 127 ∧ (fade false 128).iters.length ≤ 127) :=
  ⟨by decide, fade_terminates 128 (by decide)⟩

end Garland
